import Mathlib

/-!
Verification of the token-budgeted conversation manager in
`TheFive/StrategistAgent/AgentSkeleton/core/token_management.py`.

The tokenizer (tiktoken) is an external library; it is modelled abstractly by
an `Encoding` structure holding an `encode`/`decode` pair. All theorems about
the manager are proved for an arbitrary encoding; concrete witnesses and
counterexamples instantiate it with the character-level `charEncoding`.
Python machine integers are modelled by `Int`/`Nat` (Python ints are
unbounded, so no modular wrap is needed), Python floats used for the
threshold fractions by `ℚ`, and Python negative-index list slicing by
`pyTake`.
-/

namespace TokenManagement

/-- Abstract tokenizer: `tiktoken`'s `encode`/`decode` pair. -/
structure Encoding (τ : Type) where
  encode : String → List τ
  decode : List τ → String

/-- A concrete encoding with one token per character, used to evaluate the
definitions on concrete inputs. -/
def charEncoding : Encoding Char where
  encode s := s.data
  decode l := String.mk l

/-- A message dict `{"role": ..., "content": ...}` as consumed by the
`TokenCounter` / `TokenManager` methods. -/
structure Msg where
  role : String
  content : String
deriving DecidableEq, Repr

/-- `TokenCounter.count_text_tokens`: 0 for empty text, else the length of
the encoded token list. -/
def countTextTokens {τ : Type} (E : Encoding τ) (text : String) : Nat :=
  if text = "" then 0 else (E.encode text).length

/-- `TokenCounter.count_message_tokens`: 4 baseline tokens plus the token
counts of the role and content values (a falsy, i.e. empty, value is skipped
by the source, which coincides with `countTextTokens` returning 0 on it;
messages here never carry a "name" key). -/
def countMessageTokens {τ : Type} (E : Encoding τ) (m : Msg) : Nat :=
  4 + countTextTokens E m.role + countTextTokens E m.content

/-- `TokenCounter.count_messages_tokens`: sum over the messages plus 3
reply-priming tokens. -/
def countMessagesTokens {τ : Type} (E : Encoding τ) (ms : List Msg) : Nat :=
  (ms.map (countMessageTokens E)).sum + 3

/-- Python slice `l[:n]` for a possibly negative `n`. -/
def pyTake {τ : Type} (n : Int) (l : List τ) : List τ :=
  if 0 ≤ n then l.take n.toNat else l.take (l.length - n.natAbs)

/-- The mutable fields of `TokenManager` (the `token_counter` itself is the
abstract encoding, passed separately). -/
structure TokenManagerState where
  max_tokens : Int
  response_token_buffer : Int
  system_prompt_tokens : Int
  warning_threshold : ℚ
  summarize_threshold : ℚ
  warning_issued : Bool
  summarization_performed : Bool
  current_tokens : Int
deriving DecidableEq, Repr

/-- `self.usable_token_limit = self.max_tokens - self.response_token_buffer`. -/
def usableTokenLimit (tm : TokenManagerState) : Int :=
  tm.max_tokens - tm.response_token_buffer

/-- `TokenManager.__init__` as called by `TokenManagedConversation.__init__`
(default `response_token_buffer=1000`, `system_prompt_tokens=0`, default
model `gpt-3.5-turbo` whose table limit is 16385).  `max_tokens or
self.token_counter.token_limit` falls back on a falsy (absent or zero)
argument. -/
def mkTokenManager (maxTokens : Option Int) (warningThreshold summarizeThreshold : ℚ) :
    TokenManagerState where
  max_tokens :=
    match maxTokens with
    | none => 16385
    | some n => if n = 0 then 16385 else n
  response_token_buffer := 1000
  system_prompt_tokens := 0
  warning_threshold := warningThreshold
  summarize_threshold := summarizeThreshold
  warning_issued := false
  summarization_performed := false
  current_tokens := 0

/-- `TokenManager.get_usage_percent` (0–1 scale): guarded division by
`max_tokens`. -/
def getUsagePercent (tm : TokenManagerState) : ℚ :=
  if tm.max_tokens > 0 then (tm.current_tokens : ℚ) / (tm.max_tokens : ℚ) else 0

/-- `TokenManager.add_tokens`: bump the count, then set the sticky warning
flag if the (updated) usage crosses the warning threshold. -/
def addTokens (tm : TokenManagerState) (count : Int) : TokenManagerState :=
  let tm1 := { tm with current_tokens := tm.current_tokens + count }
  if !tm1.warning_issued && decide (getUsagePercent tm1 ≥ tm1.warning_threshold) then
    { tm1 with warning_issued := true }
  else tm1

/-- `TokenManager.reset`. -/
def resetTM (tm : TokenManagerState) : TokenManagerState :=
  { tm with current_tokens := 0, warning_issued := false, summarization_performed := false }

/-- `TokenManager.reset_warning`. -/
def resetWarning (tm : TokenManagerState) : TokenManagerState :=
  { tm with warning_issued := false }

/-- `TokenManager.should_summarize`. -/
def shouldSummarize (tm : TokenManagerState) : Bool :=
  !tm.summarization_performed && decide (getUsagePercent tm ≥ tm.summarize_threshold)

/-- The dict returned by `TokenManager.get_status`. -/
structure TokenStatus where
  current_tokens : Int
  max_tokens : Int
  usage_percent : ℚ
  warning_threshold : ℚ
  summarize_threshold : ℚ
  warning_issued : Bool
  summarization_performed : Bool
deriving DecidableEq, Repr

/-- `TokenManager.get_status`. -/
def getStatus (tm : TokenManagerState) : TokenStatus where
  current_tokens := tm.current_tokens
  max_tokens := tm.max_tokens
  usage_percent := getUsagePercent tm * 100
  warning_threshold := tm.warning_threshold * 100
  summarize_threshold := tm.summarize_threshold * 100
  warning_issued := tm.warning_issued
  summarization_performed := tm.summarization_performed

/-- `TokenManager._truncate_message_content`. -/
def truncateMessageContent {τ : Type} (E : Encoding τ) (message : Msg) (maxTokens : Int) :
    Msg :=
  let nonContentTokens := countMessageTokens E { message with content := "" }
  let contentTokenLimit : Int := maxTokens - nonContentTokens
  if contentTokenLimit ≤ 0 then
    { message with content := "[Content truncated due to length]" }
  else
    let contentTokens := countTextTokens E message.content
    if (contentTokens : Int) ≤ contentTokenLimit then message
    else
      let truncatedEncoded := pyTake (contentTokenLimit - 10) (E.encode message.content)
      { message with content := E.decode truncatedEncoded ++ " [... truncated]" }

/-- The `for msg in reversed(messages)` loop of
`TokenManager._truncate_message_contents`: the argument list is already
reversed, `acc` is the `result` list built with `insert(0, msg)`. -/
def truncateContentsLoop {τ : Type} (E : Encoding τ) :
    List Msg → Int → List Msg → List Msg
  | [], _, acc => acc
  | m :: rest, remaining, acc =>
    let t := countMessageTokens E m
    if (t : Int) ≤ remaining then truncateContentsLoop E rest (remaining - t) (m :: acc)
    else truncateMessageContent E m remaining :: acc

/-- `TokenManager._truncate_message_contents`. -/
def truncateMessageContents {τ : Type} (E : Encoding τ) (messages : List Msg)
    (maxTokens : Int) : List Msg :=
  if messages.isEmpty then []
  else truncateContentsLoop E messages.reverse maxTokens []

/-- The `for msg in reversed(older_messages)` loop of
`TokenManager.fit_messages_to_context`: the argument list is already
reversed, `acc` is `included_older_messages` built with `insert(0, msg)`. -/
def includeOlderLoop {τ : Type} (E : Encoding τ) :
    List Msg → Int → List Msg → List Msg
  | [], _, acc => acc
  | m :: rest, available, acc =>
    let t := countMessageTokens E m
    if (t : Int) ≤ available then includeOlderLoop E rest (available - t) (m :: acc)
    else if available > 100 then truncateMessageContent E m available :: acc
    else acc

/-- `TokenManager.fit_messages_to_context`. -/
def fitMessagesToContext {τ : Type} (E : Encoding τ) (tm : TokenManagerState)
    (messages : List Msg) (preserveSystemMessages : Bool) (preserveRecentMessages : Nat) :
    List Msg :=
  if messages.isEmpty then []
  else
    let allTokens := countMessagesTokens E messages
    if (allTokens : Int) ≤ usableTokenLimit tm then messages
    else
      let systemMessages := messages.filter (fun m => m.role == "system" && preserveSystemMessages)
      let regularMessages := messages.filter (fun m => !(m.role == "system" && preserveSystemMessages))
      let recentMessages :=
        if 0 < preserveRecentMessages then
          regularMessages.drop (regularMessages.length - preserveRecentMessages)
        else []
      let olderMessages :=
        if 0 < preserveRecentMessages then
          regularMessages.take (regularMessages.length - preserveRecentMessages)
        else regularMessages
      let fixedTokens := countMessagesTokens E (systemMessages ++ recentMessages)
      if (fixedTokens : Int) ≥ usableTokenLimit tm then
        let result :=
          if recentMessages.isEmpty then systemMessages
          else systemMessages ++ recentMessages.drop (recentMessages.length - 2)
        truncateMessageContents E result (usableTokenLimit tm)
      else
        let availableTokens := usableTokenLimit tm - fixedTokens
        systemMessages ++ includeOlderLoop E olderMessages.reverse availableTokens [] ++ recentMessages

/-- The `Message` class: content, role and a cached token count. -/
structure Message where
  content : String
  role : String
  token_count : Nat
deriving DecidableEq, Repr

/-- `Message.__init__`: when no pre-calculated count is supplied the cached
count is `estimate_tokens(content)`, i.e. `count_text_tokens(content)`. -/
def mkMessage {τ : Type} (E : Encoding τ) (content role : String)
    (tokenCount : Option Nat) : Message where
  content := content
  role := role
  token_count := tokenCount.getD (countTextTokens E content)

/-- `TokenManagedConversation` state (the completion client is passed to
`maybeSummarize` as an explicit argument). -/
structure TokenManagedConversation where
  token_manager : TokenManagerState
  messages : List Message
  system_prompt : Option String
deriving DecidableEq, Repr

/-- `TokenManagedConversation.__init__`. -/
def mkConversation (maxTokens : Option Int) (warningThreshold summarizeThreshold : ℚ) :
    TokenManagedConversation where
  token_manager := mkTokenManager maxTokens warningThreshold summarizeThreshold
  messages := []
  system_prompt := none

/-- Python truthiness of the `system_prompt` attribute (absent or empty is
falsy). -/
def pyTruthy : Option String → Bool
  | none => false
  | some s => !(s == "")

/-- `TokenManagedConversation.add_message`. -/
def addMessage {τ : Type} (E : Encoding τ) (conv : TokenManagedConversation)
    (content role : String) : TokenManagedConversation :=
  let message := mkMessage E content role none
  { conv with
    messages := conv.messages ++ [message]
    token_manager := addTokens conv.token_manager (message.token_count : Int) }

/-- `TokenManagedConversation.set_system_prompt`. -/
def setSystemPrompt {τ : Type} (E : Encoding τ) (conv : TokenManagedConversation)
    (prompt : String) : TokenManagedConversation :=
  let oldTokenCount : Nat :=
    if pyTruthy conv.system_prompt then countTextTokens E (conv.system_prompt.getD "") else 0
  let newTokenCount := countTextTokens E prompt
  { conv with
    system_prompt := some prompt
    token_manager := addTokens conv.token_manager ((newTokenCount : Int) - (oldTokenCount : Int)) }

/-- `TokenManagedConversation.clear`. -/
def clear {τ : Type} (E : Encoding τ) (conv : TokenManagedConversation) :
    TokenManagedConversation :=
  let systemTokens : Nat :=
    if pyTruthy conv.system_prompt then countTextTokens E (conv.system_prompt.getD "") else 0
  let tm := resetTM conv.token_manager
  { conv with
    messages := []
    token_manager := if pyTruthy conv.system_prompt then addTokens tm (systemTokens : Int) else tm }

/-- `TokenManagedConversation.get_token_status`. -/
def getTokenStatus (conv : TokenManagedConversation) : TokenStatus :=
  getStatus conv.token_manager

/-- The synthetic summary `Message` built by `maybe_summarize` (its cached
count is the pre-computed `summary_tokens` of the bare summary text). -/
def summaryMessage {τ : Type} (E : Encoding τ) (summaryText : String) : Message where
  content := "[SUMMARY OF PREVIOUS CONVERSATION: " ++ summaryText ++ "]"
  role := "system"
  token_count := countTextTokens E summaryText

/-- `TokenManagedConversation.maybe_summarize`.  The external completion
call is modelled by `client`: `none` means no client is configured,
`some (Except.error ())` a completion call that raises (caught by the
`except` block), `some (Except.ok s)` a call returning summary text `s`. -/
def maybeSummarize {τ : Type} (E : Encoding τ) (client : Option (Except Unit String))
    (conv : TokenManagedConversation) : Bool × TokenManagedConversation :=
  if !shouldSummarize conv.token_manager then (false, conv)
  else
    match client with
    | none => (false, conv)
    | some completionResult =>
      if conv.messages.length < 6 then (false, conv)
      else
        let numToSummarize := conv.messages.length - 4
        if numToSummarize = 0 then (false, conv)
        else
          let toSummarize := conv.messages.take numToSummarize
          let recentMessages := conv.messages.drop numToSummarize
          match completionResult with
          | Except.error _ => (false, conv)
          | Except.ok summaryText =>
            let oldTokens := (toSummarize.map Message.token_count).sum
            let summaryTokens := countTextTokens E summaryText
            if summaryTokens < oldTokens then
              (true,
                { conv with
                  messages := summaryMessage E summaryText :: recentMessages
                  token_manager :=
                    { conv.token_manager with
                      current_tokens :=
                        conv.token_manager.current_tokens +
                          ((summaryTokens : Int) - (oldTokens : Int))
                      summarization_performed := true } })
            else (false, conv)

/-- The public mutating operations of `TokenManagedConversation` (the
client outcome for a `maybe_summarize` call is recorded in the op). -/
inductive ConvOp where
  | addMessageOp (content role : String)
  | setSystemPromptOp (prompt : String)
  | clearOp
  | maybeSummarizeOp (client : Option (Except Unit String))

/-- Apply one public operation to a conversation. -/
def runOp {τ : Type} (E : Encoding τ) (conv : TokenManagedConversation) :
    ConvOp → TokenManagedConversation
  | ConvOp.addMessageOp content role => addMessage E conv content role
  | ConvOp.setSystemPromptOp prompt => setSystemPrompt E conv prompt
  | ConvOp.clearOp => clear E conv
  | ConvOp.maybeSummarizeOp client => (maybeSummarize E client conv).2

/-- Apply a sequence of public operations left to right. -/
def runOps {τ : Type} (E : Encoding τ) (conv : TokenManagedConversation)
    (ops : List ConvOp) : TokenManagedConversation :=
  ops.foldl (runOp E) conv

/-- Token count contributed by the stored system prompt (an absent or empty
prompt contributes zero, matching both the truthiness guards and
`countTextTokens` on `""`). -/
def promptTokens {τ : Type} (E : Encoding τ) : Option String → Nat
  | none => 0
  | some s => countTextTokens E s

/-- The representation invariant relating `current_tokens` to the cached
per-message counts and the system prompt. -/
def tokensInvariant {τ : Type} (E : Encoding τ) (conv : TokenManagedConversation) : Prop :=
  conv.token_manager.current_tokens =
    ((conv.messages.map Message.token_count).sum : Int) +
      (promptTokens E conv.system_prompt : Int)

/- Concrete instances used by witnesses and counterexamples. -/

/-- A manager whose usable ceiling is `1010 - 1000 = 10` tokens. -/
def tmSmall : TokenManagerState := mkTokenManager (some 1010) (8/10) (9/10)

/-- A manager whose usable ceiling is `2000 - 1000 = 1000` tokens. -/
def tmRoomy : TokenManagerState := mkTokenManager (some 2000) (8/10) (9/10)

/-- Fifty `a` characters. -/
def fiftyAs : String := String.mk (List.replicate 50 'a')

/-- Sixty `a` characters. -/
def sixtyAs : String := String.mk (List.replicate 60 'a')

/-- `max_tokens = 10000`, buffer `1000` (usable 9000), summarize threshold
`0.9`, `current_tokens = 8500`: above `0.9 × usable = 8100` but below
`0.9 × max = 9000`. -/
def tmBetween : TokenManagerState :=
  { max_tokens := 10000, response_token_buffer := 1000, system_prompt_tokens := 0,
    warning_threshold := 8/10, summarize_threshold := 9/10,
    warning_issued := false, summarization_performed := false, current_tokens := 8500 }

/-- A manager with the warning flag currently set. -/
def tmWarned : TokenManagerState :=
  { max_tokens := 10000, response_token_buffer := 1000, system_prompt_tokens := 0,
    warning_threshold := 8/10, summarize_threshold := 9/10,
    warning_issued := true, summarization_performed := false, current_tokens := 8500 }

/-- A six-message conversation at 95% usage with the summarize threshold at
90%, ready for a successful summarization. -/
def convSix : TokenManagedConversation :=
  { token_manager :=
    { max_tokens := 100, response_token_buffer := 1000, system_prompt_tokens := 0,
      warning_threshold := 8/10, summarize_threshold := 9/10,
      warning_issued := true, summarization_performed := false, current_tokens := 95 },
    messages := [⟨"m1", "user", 15⟩, ⟨"m2", "assistant", 15⟩, ⟨"m3", "user", 15⟩,
                 ⟨"m4", "assistant", 15⟩, ⟨"m5", "user", 15⟩, ⟨"m6", "assistant", 15⟩],
    system_prompt := none }

/-! ## Helper lemmas -/

lemma countTextTokens_nil {τ : Type} (E : Encoding τ) : countTextTokens E "" = 0 := by
  simp [countTextTokens]

lemma addTokens_current_tokens (tm : TokenManagerState) (c : Int) :
    (addTokens tm c).current_tokens = tm.current_tokens + c := by
  simp only [addTokens]
  split <;> rfl

lemma addTokens_warning_mono (tm : TokenManagerState) (c : Int)
    (h : tm.warning_issued = true) : (addTokens tm c).warning_issued = true := by
  simp only [addTokens]
  split <;> simp [h]

lemma old_prompt_tokens_eq {τ : Type} (E : Encoding τ) (p : Option String) :
    (if pyTruthy p then countTextTokens E (p.getD "") else 0) = promptTokens E p := by
  cases p with
  | none => simp [pyTruthy, promptTokens]
  | some s =>
    by_cases hs : s = "" <;> simp [pyTruthy, promptTokens, hs, countTextTokens_nil]

/-- `maybe_summarize` either is a no-op returning false, or succeeds and its
effect is fully described: the summarized prefix is replaced by the synthetic
summary message and `current_tokens` moves by the (negative) token delta. -/
lemma maybeSummarize_characterization {τ : Type} (E : Encoding τ)
    (client : Option (Except Unit String)) (conv : TokenManagedConversation) :
    maybeSummarize E client conv = (false, conv) ∨
    ∃ s : String,
      shouldSummarize conv.token_manager = true ∧
      client = some (Except.ok s) ∧
      6 ≤ conv.messages.length ∧
      countTextTokens E s <
        ((conv.messages.map Message.token_count).take (conv.messages.length - 4)).sum ∧
      maybeSummarize E client conv =
        (true,
          { conv with
            messages :=
              summaryMessage E s :: conv.messages.drop (conv.messages.length - 4)
            token_manager :=
              { conv.token_manager with
                current_tokens :=
                  conv.token_manager.current_tokens +
                    ((countTextTokens E s : Int) -
                      (((conv.messages.map Message.token_count).take
                          (conv.messages.length - 4)).sum : Int))
                summarization_performed := true } }) := by
  cases hS : shouldSummarize conv.token_manager with
  | false => left; simp [maybeSummarize, hS]
  | true =>
    cases client with
    | none => left; simp [maybeSummarize, hS]
    | some res =>
      by_cases h6 : conv.messages.length < 6
      · left; simp [maybeSummarize, hS, h6]
      · by_cases h0 : conv.messages.length - 4 = 0
        · left; simp [maybeSummarize, hS, h6, h0]
        · cases res with
          | error e => left; simp [maybeSummarize, hS, h6, h0]
          | ok s =>
            by_cases hLt : countTextTokens E s <
                ((conv.messages.map Message.token_count).take (conv.messages.length - 4)).sum
            · right
              refine ⟨s, rfl, rfl, by omega, hLt, ?_⟩
              simp [maybeSummarize, hS, h6, h0, hLt]
            · left; simp [maybeSummarize, hS, h6, h0, hLt]

/-- C2: whenever `maybe_summarize()` returns true, the history afterwards is
exactly one synthetic system-role summary message followed by the last 4
messages present before the call in their original order, and
`current_tokens` is strictly smaller than just before the call. -/
theorem maybeSummarize_success_postcondition {τ : Type} (E : Encoding τ)
    (client : Option (Except Unit String)) (conv : TokenManagedConversation)
    (h : (maybeSummarize E client conv).1 = true) :
    ∃ s : String,
      (maybeSummarize E client conv).2.messages =
        summaryMessage E s :: conv.messages.drop (conv.messages.length - 4) ∧
      (summaryMessage E s).role = "system" ∧
      (maybeSummarize E client conv).2.messages.length = 5 ∧
      (maybeSummarize E client conv).2.token_manager.current_tokens <
        conv.token_manager.current_tokens := by
  rcases maybeSummarize_characterization E client conv with hEq | ⟨s, _, _, h6, hLt, hEq⟩
  · rw [hEq] at h; simp at h
  · refine ⟨s, ?_, rfl, ?_, ?_⟩
    · rw [hEq]
    · rw [hEq]; simp [List.length_drop]; omega
    · rw [hEq]; dsimp only; omega

/-- Witness for C2: a successful summarization on the concrete six-message
conversation `convSix` strictly shrinks `current_tokens`. -/
theorem maybeSummarize_success_postcondition_witness :
    (maybeSummarize charEncoding (some (Except.ok "ok")) convSix).2.token_manager.current_tokens <
      convSix.token_manager.current_tokens := by
  have hS : shouldSummarize convSix.token_manager = true := by
    simp only [convSix, shouldSummarize, getUsagePercent]
    norm_num
  obtain ⟨s, hmsg, hrole, hlen, hlt⟩ :=
    maybeSummarize_success_postcondition charEncoding (some (Except.ok "ok")) convSix
      (by simp only [maybeSummarize, hS, Bool.not_true, Bool.false_eq_true, if_false]
          decide)
  exact hlt

/-- C4: in every non-success case (below threshold or already performed, no
client, fewer than 6 messages, completion raising, summary not shorter —
all subsumed by the result flag being false), `maybe_summarize` returns
false and leaves the conversation completely unchanged; being a total
function, no exception escapes. -/
theorem maybeSummarize_failure_atomic {τ : Type} (E : Encoding τ)
    (client : Option (Except Unit String)) (conv : TokenManagedConversation)
    (h : shouldSummarize conv.token_manager = false ∨ client = none ∨
      conv.messages.length < 6 ∨ client = some (Except.error ()) ∨
      (maybeSummarize E client conv).1 = false) :
    (maybeSummarize E client conv).1 = false ∧ (maybeSummarize E client conv).2 = conv := by
  rcases maybeSummarize_characterization E client conv with hEq | ⟨s, hS, hC, h6, _, hEq⟩
  · rw [hEq]; exact ⟨rfl, rfl⟩
  · exfalso
    rcases h with h | h | h | h | h
    · rw [h] at hS; cases hS
    · rw [h] at hC; cases hC
    · omega
    · rw [h] at hC; simp at hC
    · rw [hEq] at h; simp at h

/-- Witness for C4: on a fresh conversation with no client configured,
`maybe_summarize` returns false and changes nothing. -/
theorem maybeSummarize_failure_atomic_witness :
    (maybeSummarize charEncoding none (mkConversation (some 100000) (8/10) (9/10))).1 = false ∧
    (maybeSummarize charEncoding none (mkConversation (some 100000) (8/10) (9/10))).2 =
      mkConversation (some 100000) (8/10) (9/10) :=
  maybeSummarize_failure_atomic charEncoding none _ (Or.inr (Or.inl rfl))

/-- C3 counterexample: `tmBetween` has `current_tokens = 8500`, which is at
least `summarize_threshold × usable ceiling = 0.9 × 9000 = 8100` with
summarization not yet performed, so the claim says summarization is due —
yet `should_summarize` returns false, because the code compares
`current_tokens / max_tokens = 0.85` against the threshold. -/
theorem shouldSummarize_usable_trigger_counterexample :
    shouldSummarize tmBetween = false ∧
    tmBetween.summarization_performed = false ∧
    tmBetween.summarize_threshold * ((usableTokenLimit tmBetween : Int) : ℚ) ≤
      (tmBetween.current_tokens : ℚ) := by
  refine ⟨?_, rfl, ?_⟩
  · simp only [shouldSummarize, tmBetween, getUsagePercent]
    norm_num
  · simp only [tmBetween, usableTokenLimit]
    norm_num

/-- C3 amended: `should_summarize` returns true exactly when summarization
has not been performed and `current_tokens / max_tokens` (raw `max_tokens`,
with the quotient taken as 0 when `max_tokens ≤ 0`) is at least
`summarize_threshold` — the trigger applies to raw max tokens, not to the
usable ceiling. -/
theorem shouldSummarize_raw_max_trigger (tm : TokenManagerState) :
    shouldSummarize tm = true ↔
      tm.summarization_performed = false ∧ tm.summarize_threshold ≤ getUsagePercent tm := by
  simp [shouldSummarize, Bool.and_eq_true, Bool.not_eq_true', decide_eq_true_iff, ge_iff_le]

/-- C5 counterexample: the `Message` built from content `"hi"` caches a
token count of 2 under the character encoding — the bare content count, not
content plus the fixed per-message overhead of 4 that
`count_message_tokens` charges. -/
theorem message_overhead_counterexample :
    (mkMessage charEncoding "hi" "user" none).token_count = 2 ∧
    (mkMessage charEncoding "hi" "user" none).token_count ≠
      countTextTokens charEncoding "hi" + 4 := by
  refine ⟨rfl, ?_⟩
  decide

/-- C5 amended: a `Message`'s cached token count, computed at creation time,
equals the token count of its content alone (no per-message role/formatting
overhead is added), and that bare content count is exactly what
`add_message` adds to `current_tokens`. -/
theorem message_token_count_content_only {τ : Type} (E : Encoding τ)
    (conv : TokenManagedConversation) (content role : String) :
    (mkMessage E content role none).token_count = countTextTokens E content ∧
    (addMessage E conv content role).token_manager.current_tokens =
      conv.token_manager.current_tokens + (countTextTokens E content : Int) := by
  refine ⟨rfl, ?_⟩
  simp [addMessage, mkMessage, addTokens_current_tokens]

/-- C6: replacing the system prompt twice (P1 then P2) leaves
`current_tokens` exactly as a single replacement by P2 would — P1's tokens
are not double-counted. -/
theorem setSystemPrompt_no_double_count {τ : Type} (E : Encoding τ)
    (conv : TokenManagedConversation) (P1 P2 : String) :
    (setSystemPrompt E (setSystemPrompt E conv P1) P2).token_manager.current_tokens =
      (setSystemPrompt E conv P2).token_manager.current_tokens := by
  simp only [setSystemPrompt, addTokens_current_tokens, old_prompt_tokens_eq]
  simp only [promptTokens]
  omega

/-- C8 counterexample: `TokenManager.reset_warning` is a public operation on
the manager that is not `clear()`, yet it transitions `warning_issued` from
true back to false, refuting the claim for sequences of TokenManager
operations. -/
theorem warning_reset_without_clear_counterexample :
    tmWarned.warning_issued = true ∧ (resetWarning tmWarned).warning_issued = false :=
  ⟨rfl, rfl⟩

/-- C8 amended: over every sequence of the `TokenManagedConversation`
public operations (`add_message`, `set_system_prompt`, `maybe_summarize`,
`clear`), `warning_issued` never transitions from true back to false except
via `clear()`; at the bare `TokenManager` level, `reset()` and
`reset_warning()` also lower the flag. -/
theorem warning_sticky_over_conversation_ops {τ : Type} (E : Encoding τ)
    (ops : List ConvOp) (conv : TokenManagedConversation)
    (h1 : conv.token_manager.warning_issued = true)
    (h2 : ∀ op ∈ ops, op ≠ ConvOp.clearOp) :
    (runOps E conv ops).token_manager.warning_issued = true := by
  induction ops generalizing conv with
  | nil => simpa [runOps] using h1
  | cons op rest ih =>
    have hstep : (runOp E conv op).token_manager.warning_issued = true := by
      cases op with
      | addMessageOp content role =>
        simpa [runOp, addMessage] using
          addTokens_warning_mono conv.token_manager _ h1
      | setSystemPromptOp prompt =>
        simpa [runOp, setSystemPrompt] using
          addTokens_warning_mono conv.token_manager _ h1
      | clearOp =>
        exact absurd rfl (h2 ConvOp.clearOp (List.mem_cons_self _ _))
      | maybeSummarizeOp client =>
        rcases maybeSummarize_characterization E client conv with hEq | ⟨s, _, _, _, _, hEq⟩
        · simp [runOp, hEq, h1]
        · simp [runOp, hEq, h1]
    have := ih (runOp E conv op) hstep
      (fun o ho => h2 o (List.mem_cons_of_mem _ ho))
    simpa [runOps, List.foldl_cons] using this

/-- Witness for C8 amended: with the warning flag set, adding a message
keeps it set. -/
theorem warning_sticky_over_conversation_ops_witness :
    (runOps charEncoding
        { token_manager := tmWarned, messages := [], system_prompt := none }
        [ConvOp.addMessageOp "x" "user"]).token_manager.warning_issued = true := by
  refine warning_sticky_over_conversation_ops charEncoding _ _ rfl ?_
  intro op hop
  simp only [List.mem_singleton] at hop
  subst hop
  simp

/-- C9: `get_token_status()` on a freshly constructed conversation (no
messages, no system prompt) reports zero current tokens, zero usage percent
and both sticky flags false, for every construction parameter; and the
usage-percent computation is guarded so that any manager with
`max_tokens ≤ 0` yields usage 0 instead of dividing by zero. -/
theorem get_token_status_fresh_guarded (maxTokens : Option Int) (wt st : ℚ)
    (tm : TokenManagerState) (h : tm.max_tokens ≤ 0) :
    (getTokenStatus (mkConversation maxTokens wt st)).current_tokens = 0 ∧
    (getTokenStatus (mkConversation maxTokens wt st)).usage_percent = 0 ∧
    (getTokenStatus (mkConversation maxTokens wt st)).warning_issued = false ∧
    (getTokenStatus (mkConversation maxTokens wt st)).summarization_performed = false ∧
    getUsagePercent tm = 0 := by
  refine ⟨rfl, ?_, rfl, rfl, ?_⟩
  · simp only [getTokenStatus, getStatus, mkConversation, mkTokenManager, getUsagePercent]
    split <;> simp
  · rw [getUsagePercent, if_neg (by omega)]

/-- Witness for C9: a fresh default conversation together with a
zero-capacity manager. -/
theorem get_token_status_fresh_guarded_witness :
    (getTokenStatus (mkConversation (some 100000) (8/10) (9/10))).current_tokens = 0 ∧
    (getTokenStatus (mkConversation (some 100000) (8/10) (9/10))).usage_percent = 0 ∧
    (getTokenStatus (mkConversation (some 100000) (8/10) (9/10))).warning_issued = false ∧
    (getTokenStatus (mkConversation (some 100000) (8/10) (9/10))).summarization_performed = false ∧
    getUsagePercent { tmWarned with max_tokens := 0 } = 0 :=
  get_token_status_fresh_guarded (some 100000) (8/10) (9/10)
    { tmWarned with max_tokens := 0 } (by decide)

lemma promptTokens_some {τ : Type} (E : Encoding τ) (s : String) :
    promptTokens E (some s) = countTextTokens E s := rfl

lemma tokensInvariant_runOp {τ : Type} (E : Encoding τ) (conv : TokenManagedConversation)
    (op : ConvOp) (h : tokensInvariant E conv) : tokensInvariant E (runOp E conv op) := by
  cases op with
  | addMessageOp content role =>
    simp only [tokensInvariant] at h ⊢
    simp only [runOp, addMessage, mkMessage, Option.getD_none, addTokens_current_tokens,
      List.map_append, List.sum_append, List.map_cons, List.map_nil, List.sum_cons,
      List.sum_nil]
    omega
  | setSystemPromptOp prompt =>
    simp only [tokensInvariant] at h ⊢
    simp only [runOp, setSystemPrompt, addTokens_current_tokens, old_prompt_tokens_eq,
      promptTokens_some]
    omega
  | clearOp =>
    simp only [tokensInvariant] at h ⊢
    have hold := old_prompt_tokens_eq E conv.system_prompt
    by_cases hp : pyTruthy conv.system_prompt = true
    · rw [if_pos hp] at hold
      simp only [runOp, clear, if_pos hp, addTokens_current_tokens, resetTM, hold,
        List.map_nil, List.sum_nil]
      omega
    · rw [if_neg hp] at hold
      simp only [runOp, clear, if_neg hp, resetTM, List.map_nil, List.sum_nil]
      omega
  | maybeSummarizeOp client =>
    rcases maybeSummarize_characterization E client conv with hEq | ⟨s, _, _, h6, hLt, hEq⟩
    · simpa [runOp, hEq] using h
    · simp only [tokensInvariant] at h ⊢
      simp only [runOp, hEq, summaryMessage, List.map_cons, List.sum_cons, List.map_drop]
      have hsplit :
          ((conv.messages.map Message.token_count).take (conv.messages.length - 4)).sum +
            ((conv.messages.map Message.token_count).drop (conv.messages.length - 4)).sum =
            (conv.messages.map Message.token_count).sum :=
        List.sum_take_add_sum_drop _ _
      omega

lemma tokensInvariant_runOps {τ : Type} (E : Encoding τ) (conv : TokenManagedConversation)
    (ops : List ConvOp) (h : tokensInvariant E conv) :
    tokensInvariant E (runOps E conv ops) := by
  induction ops generalizing conv with
  | nil => simpa [runOps] using h
  | cons op rest ih =>
    simpa [runOps, List.foldl_cons] using
      ih (runOp E conv op) (tokensInvariant_runOp E conv op h)

/-- C10: starting from a freshly constructed conversation, after any
sequence of the public operations `add_message`, `set_system_prompt`,
`clear` and `maybe_summarize`, `current_tokens` is never negative. -/
theorem current_tokens_nonneg {τ : Type} (E : Encoding τ) (maxTokens : Option Int)
    (wt st : ℚ) (ops : List ConvOp) :
    0 ≤ (runOps E (mkConversation maxTokens wt st) ops).token_manager.current_tokens := by
  have hbase : tokensInvariant E (mkConversation maxTokens wt st) := by
    simp [tokensInvariant, mkConversation, mkTokenManager, promptTokens]
  have hinv := tokensInvariant_runOps E _ ops hbase
  simp only [tokensInvariant] at hinv
  omega

/-- C1: evaluation of `fit_messages_to_context` at the failing input — a
manager with usable ceiling 10 and a single 50-character user message under
the character encoding.  The fitter returns a single message that is not
the forced placeholder, with an estimated 69 tokens, far above the ceiling:
`encoded[:content_token_limit-10]` is a negative-index slice when
`content_token_limit < 10`, so almost all of the content is kept. -/
theorem fit_exceeds_usable_limit_on_failing_input :
    usableTokenLimit tmSmall = 10 ∧
    countMessagesTokens charEncoding
        (fitMessagesToContext charEncoding tmSmall [⟨"user", fiftyAs⟩] true 4) = 69 ∧
    (fitMessagesToContext charEncoding tmSmall [⟨"user", fiftyAs⟩] true 4).map Msg.content ≠
      ["[Content truncated due to length]"] := by
  refine ⟨rfl, ?_, ?_⟩ <;> decide

/-- C7 counterexample: refitting the already-fitted single-message sequence
(usable ceiling 10, one 60-character user message) truncates it again, so
`fit_messages_to_context` is not idempotent. -/
theorem fit_not_idempotent_counterexample :
    fitMessagesToContext charEncoding tmSmall
        (fitMessagesToContext charEncoding tmSmall [⟨"user", sixtyAs⟩] true 4) true 4 ≠
      fitMessagesToContext charEncoding tmSmall [⟨"user", sixtyAs⟩] true 4 := by
  decide

/-- C7 amended: whenever the fitted sequence's estimated token count is
within the usable ceiling (every case except the buggy last-resort
truncation overflow), refitting it returns the identical sequence. -/
theorem fit_refit_identity {τ : Type} (E : Encoding τ) (tm : TokenManagerState)
    (messages : List Msg)
    (h : (countMessagesTokens E (fitMessagesToContext E tm messages true 4) : Int) ≤
      usableTokenLimit tm) :
    fitMessagesToContext E tm (fitMessagesToContext E tm messages true 4) true 4 =
      fitMessagesToContext E tm messages true 4 := by
  set r := fitMessagesToContext E tm messages true 4 with hrdef
  by_cases hE : r.isEmpty
  · have hnil : r = [] := by simpa using hE
    rw [hnil]
    simp [fitMessagesToContext]
  · rw [fitMessagesToContext]
    simp only [hE, Bool.false_eq_true, if_false]
    rw [if_pos h]

/-- Witness for C7 amended: a short message list that already fits a
usable ceiling of 1000 tokens is returned unchanged by a second fit. -/
theorem fit_refit_identity_witness :
    fitMessagesToContext charEncoding tmRoomy
        (fitMessagesToContext charEncoding tmRoomy [⟨"user", "hi"⟩] true 4) true 4 =
      fitMessagesToContext charEncoding tmRoomy [⟨"user", "hi"⟩] true 4 :=
  fit_refit_identity charEncoding tmRoomy [⟨"user", "hi"⟩] (by decide)

end TokenManagement
